import Mathlib

/-!
Verification of the `quadruped_control` leg/whole-body kinematics and the
gait-visualizer control loop, shallowly embedded from
`src/quadruped_controller/src/quadruped_controller/kinematics.cpp` and
`src/quadruped_controller/src/gait_visualizer_node.cpp`.

Armadillo `vec`/`mat` values become `Fin n → ℝ` / `Matrix (Fin m) (Fin n) ℝ`;
`double` becomes `ℝ`; trigonometric calls become `Real.sin` / `Real.cos`.
-/

noncomputable section

namespace QuadrupedControl

open Real

/-- Embedding of `leg_jacobian` (kinematics.cpp lines 12-36): the 3x3 matrix
filled entry by entry from the three link lengths and three joint angles. -/
def leg_jacobian (links joints : Fin 3 → ℝ) : Matrix (Fin 3) (Fin 3) ℝ :=
  let l1 := links 0
  let l2 := links 1
  let l3 := links 2
  let t1 := joints 0
  let t2 := joints 1
  let t3 := joints 2
  Matrix.of
    ![![0,
        l2 * Real.cos t2 + l3 * Real.cos (t2 + t3),
        l3 * Real.cos (t2 + t3)],
      ![(-l1) * Real.sin t1 - l2 * Real.cos t1 * Real.cos t2 -
          l3 * Real.cos t1 * Real.cos (t2 + t3),
        (l2 * Real.sin t2 + l3 * Real.sin (t2 + t3)) * Real.sin t1,
        l3 * Real.sin t1 * Real.sin (t2 + t3)],
      ![l1 * Real.cos t1 - l2 * Real.sin t1 * Real.cos t2 -
          l3 * Real.sin t1 * Real.cos (t2 + t3),
        (-(l2 * Real.sin t2 + l3 * Real.sin (t2 + t3))) * Real.cos t1,
        (-l3) * Real.sin (t2 + t3) * Real.cos t1]]

/-- Embedding of `leg_forward_kinematics` (kinematics.cpp lines 38-56):
foot position in the base frame from base-to-hip translation, link lengths
and joint angles. -/
def leg_forward_kinematics (trans_bh links joints : Fin 3 → ℝ) : Fin 3 → ℝ :=
  let l1 := links 0
  let l2 := links 1
  let l3 := links 2
  let t1 := joints 0
  let t2 := joints 1
  let t3 := joints 2
  ![l2 * Real.sin t2 + l3 * Real.sin (t2 + t3) + trans_bh 0,
    l1 * Real.cos t1 - l2 * Real.sin t1 * Real.cos t2 -
      l3 * Real.sin t1 * Real.cos (t2 + t3) + trans_bh 1,
    l1 * Real.sin t1 + l2 * Real.cos t1 * Real.cos t2 +
      l3 * Real.cos t1 * Real.cos (t2 + t3) + trans_bh 2]

/-- Hip x-offset hard-coded in the `QuadrupedKinematics` constructor. -/
def xbh : ℝ := 0.196

/-- Hip y-offset hard-coded in the `QuadrupedKinematics` constructor. -/
def ybh : ℝ := 0.050

/-- Hip z-offset hard-coded in the `QuadrupedKinematics` constructor. -/
def zbh : ℝ := 0.0

/-- First link length hard-coded in the `QuadrupedKinematics` constructor. -/
def l1 : ℝ := 0.077

/-- Second link length hard-coded in the `QuadrupedKinematics` constructor. -/
def l2 : ℝ := 0.211

/-- Third link length hard-coded in the `QuadrupedKinematics` constructor. -/
def l3 : ℝ := 0.230

/-- Left-leg link configuration `{ l1, -l2, -l3 }` (kinematics.cpp line 79). -/
def left_links : Fin 3 → ℝ := ![l1, -l2, -l3]

/-- Right-leg link configuration `{ -l1, -l2, -l3 }` (kinematics.cpp line 80). -/
def right_links : Fin 3 → ℝ := ![-l1, -l2, -l3]

/-- Base-to-hip translations for the four legs in the fixed column order
RL, FL, RR, FR (kinematics.cpp lines 72-76 and 112-119). -/
def legTrans : Fin 4 → Fin 3 → ℝ :=
  ![![-xbh, ybh, zbh], ![xbh, ybh, zbh], ![-xbh, -ybh, zbh], ![xbh, -ybh, zbh]]

/-- Link configuration per leg in the fixed order RL, FL, RR, FR
(kinematics.cpp lines 82-86). -/
def legLinks : Fin 4 → Fin 3 → ℝ :=
  ![left_links, left_links, right_links, right_links]

/-- Embedding of the armadillo subvector access `q.rows(a, a + 2)` on a
dynamically sized vector: defined only when index `a + 2` is in bounds,
mirroring armadillo's bounds check (which aborts the call otherwise). -/
def rows3 (q : List ℝ) (a : ℕ) : Option (Fin 3 → ℝ) :=
  if h : a + 2 < q.length then
    some (fun k => q.get ⟨a + k.val, by omega⟩)
  else none

/-- Embedding of `QuadrupedKinematics::forwardKinematics` (kinematics.cpp
lines 106-122): slice the joint vector as `q.rows(0,2)`, `q.rows(3,5)`,
`q.rows(6,8)`, `q.rows(9,11)` and delegate to `leg_forward_kinematics` per
leg, columns ordered RL, FL, RR, FR. -/
def forwardKinematics (q : List ℝ) : Option (Matrix (Fin 3) (Fin 4) ℝ) :=
  match rows3 q 0, rows3 q 3, rows3 q 6, rows3 q 9 with
  | some q0, some q1, some q2, some q3 =>
      some (Matrix.of fun i j =>
        leg_forward_kinematics (legTrans j) (legLinks j) (![q0, q1, q2, q3] j) i)
  | _, _, _, _ => none

/-- The three-element slice of a 12-element vector belonging to one leg:
`v.rows(3*leg, 3*leg + 2)` in the fixed order RL, FL, RR, FR. -/
def rows12 (v : Fin 12 → ℝ) (leg : Fin 4) : Fin 3 → ℝ :=
  fun k => v ⟨3 * leg.val + k.val, by omega⟩

/-- Embedding of `QuadrupedKinematics::jacobianTransposeControl`
(kinematics.cpp lines 124-139): the 12-element torque vector assembled from
the four per-leg assignments `tau.rows(3*leg, 3*leg+2) = J_leg.t() * f.rows(3*leg, 3*leg+2)`. -/
def jacobianTransposeControl (q f : Fin 12 → ℝ) : Fin 12 → ℝ := fun i =>
  if h3 : i.val < 3 then
    ((leg_jacobian (legLinks 0) (rows12 q 0)).transpose.mulVec (rows12 f 0))
      ⟨i.val, h3⟩
  else if h6 : i.val < 6 then
    ((leg_jacobian (legLinks 1) (rows12 q 1)).transpose.mulVec (rows12 f 1))
      ⟨i.val - 3, by omega⟩
  else if h9 : i.val < 9 then
    ((leg_jacobian (legLinks 2) (rows12 q 2)).transpose.mulVec (rows12 f 2))
      ⟨i.val - 6, by omega⟩
  else
    ((leg_jacobian (legLinks 3) (rows12 q 3)).transpose.mulVec (rows12 f 3))
      ⟨i.val - 9, by omega⟩

/-- Per-leg gait discriminant consumed by the control loop
(`LegState::swing` / stance, declared in gait.hpp and matched on in
gait_visualizer_node.cpp line 287). -/
inductive LegState where
  | swing
  | stance
deriving DecidableEq

/-- Embedding of the swing-branch transform in gait_visualizer_node.cpp line
292: `foot_state.position = inv(Rwb) * foot_state.position - x`. -/
def swingFootBodyPosition (Rwb : Matrix (Fin 3) (Fin 3) ℝ)
    (x p : Fin 3 → ℝ) : Fin 3 → ℝ :=
  Rwb⁻¹.mulVec p - x

/-- Modelled from the spec: the world-to-body transform the spec prescribes
for the reference foot position ("Transform the reference foot position from
world frame to body frame" using the body pose), i.e. the inverse body
rotation applied to the world position minus the body position. Stated here
for comparison with `swingFootBodyPosition`. -/
def worldToBodySpec (Rwb : Matrix (Fin 3) (Fin 3) ℝ)
    (x p : Fin 3 → ℝ) : Fin 3 → ℝ :=
  Rwb⁻¹.mulVec (p - x)

/-- Embedding of the per-leg joint-command publication (gait_visualizer_node.cpp
lines 283-309): a swing leg's command comes from the inverse position solve on
the transformed reference position at the leg's current phase; a stance leg's
command is the leg's initial joint positions. The body of
`QuadrupedKinematics::legInverseKinematics` is not among the sources, so the
solve is a parameter `ik`. -/
def publishedJointPosition
    (ik : String → (Fin 3 → ℝ) → Fin 3 → ℝ)
    (initPos : String → Fin 3 → ℝ)
    (refState : String → ℝ → Fin 3 → ℝ)
    (Rwb : Matrix (Fin 3) (Fin 3) ℝ) (x : Fin 3 → ℝ)
    (gaitMap : String → LegState × ℝ)
    (leg : String) : Fin 3 → ℝ :=
  match (gaitMap leg).1 with
  | LegState.swing =>
      ik leg (swingFootBodyPosition Rwb x (refState leg (gaitMap leg).2))
  | LegState.stance => initPos leg

/-- The condition under which gait_visualizer_node.cpp lines 133-143 log the
"Invalid joint configuration" error: the declared joint count differs from
the number of joint names or of initial joint positions. The code only logs;
it does not return or throw here. -/
def configErrorReported (num_joints : ℕ) (joint_names : List String)
    (init_joint_positions : List ℝ) : Prop :=
  num_joints ≠ joint_names.length ∨ num_joints ≠ init_joint_positions.length

/-- The element accesses executed between the configuration check and the
control loop (gait_visualizer_node.cpp lines 146-235): `leg_names.at(0..3)`,
`joint_names.at(0..11)`, `init_joint_positions.at(0..11)` and the
`q_init.rows` slices inside `forwardKinematics(q_init)`. They all succeed —
so startup falls through into the `while` loop — exactly when the three
lists are long enough; otherwise `.at` throws and the process dies before
the loop. -/
def startupReachesLoop (leg_names joint_names : List String)
    (init_joint_positions : List ℝ) : Prop :=
  4 ≤ leg_names.length ∧ 12 ≤ joint_names.length ∧
    12 ≤ init_joint_positions.length

/-- The fields of a visualization marker that `footTrajViz` fills
(gait_visualizer_node.cpp lines 49-100); the ROS timestamp is omitted. -/
structure Marker where
  frame_id : String
  ns : String
  id : ℕ
  position : Fin 3 → ℝ
  color : Fin 4 → ℝ
  lifetime : ℝ

/-- One marker of the foot-trajectory visualization: sphere at the reference
position for the given phase, red for legs FL and RR, blue otherwise
(gait_visualizer_node.cpp lines 62-94). -/
def mkTrajMarker (ref : String → ℝ → Fin 3 → ℝ) (leg_name : String)
    (t_swing : ℝ) (i : ℕ) (phase : ℝ) : Marker where
  frame_id := "world"
  ns := leg_name
  id := i
  position := ref leg_name phase
  color := if leg_name = "FL" ∨ leg_name = "RR" then ![1, 0, 0, 1] else ![0, 0, 1, 1]
  lifetime := t_swing

/-- The marker loop of `footTrajViz`: build one marker per step, then advance
`phase += dt` and the id (gait_visualizer_node.cpp lines 60-97), with the
remaining step count as the recursion fuel. -/
def vizLoop (ref : String → ℝ → Fin 3 → ℝ) (leg_name : String)
    (t_swing dt : ℝ) : ℝ → ℕ → ℕ → List Marker
  | _, _, 0 => []
  | phase, i, n + 1 =>
      mkTrajMarker ref leg_name t_swing i phase ::
        vizLoop ref leg_name t_swing dt (phase + dt) (i + 1) n

/-- Embedding of `footTrajViz` (gait_visualizer_node.cpp lines 49-100):
30 markers starting at `stance_phase` with step `(1 - stance_phase) / 30`,
sampling the trajectory manager's reference state for the leg. -/
def footTrajViz (ref : String → ℝ → Fin 3 → ℝ) (leg_name : String)
    (stance_phase t_swing : ℝ) : List Marker :=
  vizLoop ref leg_name t_swing ((1 - stance_phase) / 30) stance_phase 0 30

end QuadrupedControl

namespace QuadrupedControl

/-- C1: `leg_jacobian` is the matrix of partial derivatives of
`leg_forward_kinematics` with respect to the joint angles: entry (i, j) is
the derivative of foot coordinate i in the direction of joint j, at the
given configuration, for every base-to-hip translation. -/
theorem leg_jacobian_is_fk_derivative (b links joints : Fin 3 → ℝ)
    (i j : Fin 3) :
    HasDerivAt (fun t => leg_forward_kinematics b links (Function.update joints j t) i)
      (leg_jacobian links joints i j) (joints j) := by
  fin_cases i <;> fin_cases j
  · exact hasDerivAt_const (joints 0)
      (links 1 * Real.sin (joints 1) + links 2 * Real.sin (joints 1 + joints 2) + b 0)
  · exact (((Real.hasDerivAt_sin (joints 1)).const_mul (links 1)).add
      ((((hasDerivAt_id (joints 1)).add_const (joints 2)).sin).const_mul
        (links 2))).add_const (b 0) |>.congr_deriv
      (by simp [leg_jacobian, Matrix.cons_val_two] <;> ring)
  · exact ((hasDerivAt_const (joints 2) (links 1 * Real.sin (joints 1))).add
      ((((hasDerivAt_id (joints 2)).const_add (joints 1)).sin).const_mul
        (links 2))).add_const (b 0) |>.congr_deriv
      (by simp [leg_jacobian, Matrix.cons_val_two] <;> ring)
  · exact ((((Real.hasDerivAt_cos (joints 0)).const_mul (links 0)).sub
      (((Real.hasDerivAt_sin (joints 0)).const_mul (links 1)).mul_const
        (Real.cos (joints 1)))).sub
      (((Real.hasDerivAt_sin (joints 0)).const_mul (links 2)).mul_const
        (Real.cos (joints 1 + joints 2)))).add_const (b 1) |>.congr_deriv
      (by simp [leg_jacobian, Matrix.cons_val_two] <;> ring)
  · exact (((hasDerivAt_const (joints 1) (links 0 * Real.cos (joints 0))).sub
      ((Real.hasDerivAt_cos (joints 1)).const_mul
        (links 1 * Real.sin (joints 0)))).sub
      ((((hasDerivAt_id (joints 1)).add_const (joints 2)).cos).const_mul
        (links 2 * Real.sin (joints 0)))).add_const (b 1) |>.congr_deriv
      (by simp [leg_jacobian, Matrix.cons_val_two] <;> ring)
  · exact ((hasDerivAt_const (joints 2)
      (links 0 * Real.cos (joints 0) -
        links 1 * Real.sin (joints 0) * Real.cos (joints 1))).sub
      ((((hasDerivAt_id (joints 2)).const_add (joints 1)).cos).const_mul
        (links 2 * Real.sin (joints 0)))).add_const (b 1) |>.congr_deriv
      (by simp [leg_jacobian, Matrix.cons_val_two] <;> ring)
  · exact ((((Real.hasDerivAt_sin (joints 0)).const_mul (links 0)).add
      (((Real.hasDerivAt_cos (joints 0)).const_mul (links 1)).mul_const
        (Real.cos (joints 1)))).add
      (((Real.hasDerivAt_cos (joints 0)).const_mul (links 2)).mul_const
        (Real.cos (joints 1 + joints 2)))).add_const (b 2) |>.congr_deriv
      (by simp [leg_jacobian, Matrix.cons_val_two] <;> ring)
  · exact (((hasDerivAt_const (joints 1) (links 0 * Real.sin (joints 0))).add
      ((Real.hasDerivAt_cos (joints 1)).const_mul
        (links 1 * Real.cos (joints 0)))).add
      ((((hasDerivAt_id (joints 1)).add_const (joints 2)).cos).const_mul
        (links 2 * Real.cos (joints 0)))).add_const (b 2) |>.congr_deriv
      (by simp [leg_jacobian, Matrix.cons_val_two] <;> ring)
  · exact ((hasDerivAt_const (joints 2)
      (links 0 * Real.sin (joints 0) +
        links 1 * Real.cos (joints 0) * Real.cos (joints 1))).add
      ((((hasDerivAt_id (joints 2)).const_add (joints 1)).cos).const_mul
        (links 2 * Real.cos (joints 0)))).add_const (b 2) |>.congr_deriv
      (by simp [leg_jacobian, Matrix.cons_val_two] <;> ring)

/-- C3: each leg's 3-element slice of `jacobianTransposeControl q f` (legs
RL, FL, RR, FR at offsets 0, 3, 6, 9) is the transpose of that leg's
Jacobian at the leg's joint-angle slice of `q`, times the leg's force slice
of `f`. -/
theorem jacobianTransposeControl_slices (q f : Fin 12 → ℝ)
    (leg : Fin 4) (k : Fin 3) :
    jacobianTransposeControl q f ⟨3 * leg.val + k.val, by omega⟩ =
      ((leg_jacobian (legLinks leg) (rows12 q leg)).transpose.mulVec
        (rows12 f leg)) k := by
  fin_cases leg <;> fin_cases k <;> rfl

/-- C5 (amended): `forwardKinematics` succeeds (returns four foot positions)
exactly when the joint vector supplies at least 12 elements; with fewer
elements one of the `rows` accesses is out of bounds and the call fails. -/
theorem forwardKinematics_isSome_iff (q : List ℝ) :
    (forwardKinematics q).isSome = true ↔ 12 ≤ q.length := by
  unfold forwardKinematics
  rcases Nat.lt_or_ge q.length 12 with hlt | hge
  · have h9 : rows3 q 9 = none := by
      unfold rows3
      rw [dif_neg]
      omega
    rcases e0 : rows3 q 0 with _ | q0 <;> rcases e3 : rows3 q 3 with _ | q1 <;>
      rcases e6 : rows3 q 6 with _ | q2 <;> simp [e0, e3, e6, h9] <;> omega
  · have hex : ∀ a : ℕ, a + 2 < q.length → ∃ v, rows3 q a = some v := by
      intro a ha
      unfold rows3
      rw [dif_pos ha]
      exact ⟨_, rfl⟩
    obtain ⟨q0, e0⟩ := hex 0 (by omega)
    obtain ⟨q1, e3⟩ := hex 3 (by omega)
    obtain ⟨q2, e6⟩ := hex 6 (by omega)
    obtain ⟨q3, e9⟩ := hex 9 (by omega)
    simp [e0, e3, e6, e9, hge]

/-- C5 counterexample: on a 13-element input (length different from 12) the
claim says `forwardKinematics` must fail, but it succeeds. -/
theorem forwardKinematics_succeeds_on_13 :
    (forwardKinematics (List.replicate 13 0)).isSome = true := by
  have hex : ∀ a : ℕ, a + 2 < 13 →
      ∃ v, rows3 (List.replicate 13 (0 : ℝ)) a = some v := by
    intro a ha
    unfold rows3
    rw [dif_pos (by simp [ha])]
    exact ⟨_, rfl⟩
  obtain ⟨q0, e0⟩ := hex 0 (by omega)
  obtain ⟨q1, e3⟩ := hex 3 (by omega)
  obtain ⟨q2, e6⟩ := hex 6 (by omega)
  obtain ⟨q3, e9⟩ := hex 9 (by omega)
  rw [forwardKinematics, e0, e3, e6, e9]
  rfl

/-- C8: whole-body forward kinematics of the 12-element zero vector equals
the closed-form matrix: per column (legs RL, FL, RR, FR) the x-coordinate is
`∓xbh` (rear/front), y is `±(l1 + ybh)` (left/right) and z is `-(l2 + l3)`. -/
theorem forwardKinematics_zero_vector :
    forwardKinematics (List.replicate 12 0) =
      some (Matrix.of
        ![![-xbh, xbh, -xbh, xbh],
          ![l1 + ybh, l1 + ybh, -(l1 + ybh), -(l1 + ybh)],
          ![-(l2 + l3), -(l2 + l3), -(l2 + l3), -(l2 + l3)]]) := by
  have h : ∀ a : ℕ, a + 2 < 12 →
      rows3 (List.replicate 12 (0 : ℝ)) a = some (fun _ => 0) := by
    intro a ha
    unfold rows3
    rw [dif_pos (by simp [ha])]
    congr 1
    funext k
    exact List.get_replicate _ _
  rw [forwardKinematics, h 0 (by omega), h 3 (by omega), h 6 (by omega),
    h 9 (by omega)]
  refine congrArg some ?_
  ext i j
  fin_cases i <;> fin_cases j <;>
    simp [leg_forward_kinematics, legTrans, legLinks, left_links, right_links,
      Matrix.cons_val_two, Matrix.cons_val_three, Matrix.vecHead, Matrix.vecTail,
      xbh, ybh, zbh, l1, l2, l3] <;>
    norm_num

/-- C9: the foot x-coordinate of `leg_forward_kinematics` never depends on the
hip-yaw angle t1, and the corresponding Jacobian entry (0,0) is identically
zero. -/
theorem fk_x_independent_of_hip_yaw (b links : Fin 3 → ℝ)
    (t1 t1' t2 t3 : ℝ) :
    leg_forward_kinematics b links ![t1, t2, t3] 0 =
      leg_forward_kinematics b links ![t1', t2, t3] 0 ∧
    leg_jacobian links ![t1, t2, t3] 0 0 = 0 := by
  constructor <;> simp [leg_forward_kinematics, leg_jacobian]

/-- C7: mirror symmetry of the leg forward kinematics. Flipping the sign of
the first link component (left vs right chirality), the hip y-offset and the
hip-yaw angle negates the foot y-coordinate and preserves x and z. -/
theorem fk_left_right_mirror (a b c t1 t2 t3 x y z : ℝ) :
    leg_forward_kinematics ![x, -y, z] ![-a, b, c] ![-t1, t2, t3] 0 =
      leg_forward_kinematics ![x, y, z] ![a, b, c] ![t1, t2, t3] 0 ∧
    leg_forward_kinematics ![x, -y, z] ![-a, b, c] ![-t1, t2, t3] 1 =
      -leg_forward_kinematics ![x, y, z] ![a, b, c] ![t1, t2, t3] 1 ∧
    leg_forward_kinematics ![x, -y, z] ![-a, b, c] ![-t1, t2, t3] 2 =
      leg_forward_kinematics ![x, y, z] ![a, b, c] ![t1, t2, t3] 2 := by
  refine ⟨?_, ?_, ?_⟩ <;>
    simp [leg_forward_kinematics, Real.sin_neg, Real.cos_neg] <;> ring

/-- The z-axis quarter-turn rotation used as a concrete body orientation. -/
def Rz90 : Matrix (Fin 3) (Fin 3) ℝ :=
  !![0, -1, 0; 1, 0, 0; 0, 0, 1]

lemma Rz90_inv : Rz90⁻¹ = !![0, 1, 0; -1, 0, 0; 0, 0, 1] := by
  apply Matrix.inv_eq_right_inv
  ext i j
  fin_cases i <;> fin_cases j <;>
    simp [Rz90, Matrix.mul_apply, Fin.sum_univ_three, Matrix.one_apply,
      Matrix.vecHead, Matrix.vecTail]

/-- C2: at body rotation `Rz90` and body position `(1,0,0)`, the position the
code hands to the inverse solve for a reference world position `(0,0,0)` is
`inv(Rwb)*p - x = (-1,0,0)`, not the spec's world-to-body transform
`inv(Rwb)*(p - x) = (0,1,0)`: the code's transform diverges from the spec. -/
theorem swing_transform_diverges_from_spec :
    swingFootBodyPosition Rz90 ![1, 0, 0] ![0, 0, 0] = ![-1, 0, 0] ∧
    worldToBodySpec Rz90 ![1, 0, 0] ![0, 0, 0] = ![0, 1, 0] ∧
    swingFootBodyPosition Rz90 ![1, 0, 0] ![0, 0, 0] ≠
      worldToBodySpec Rz90 ![1, 0, 0] ![0, 0, 0] := by
  have hcode : swingFootBodyPosition Rz90 ![1, 0, 0] ![0, 0, 0] = ![-1, 0, 0] := by
    funext i
    fin_cases i <;>
      simp [swingFootBodyPosition, Rz90_inv, Matrix.mulVec, Matrix.dotProduct,
        Fin.sum_univ_three]
  have hspec : worldToBodySpec Rz90 ![1, 0, 0] ![0, 0, 0] = ![0, 1, 0] := by
    funext i
    fin_cases i <;>
      simp [worldToBodySpec, Rz90_inv, Matrix.mulVec, Matrix.dotProduct,
        Fin.sum_univ_three]
  refine ⟨hcode, hspec, ?_⟩
  rw [hcode, hspec]
  intro h
  have h0 := congrFun h 0
  simp at h0

/-- C4: a stance leg's published joint command is exactly that leg's initial
joint positions, and it is unchanged between two cycles whatever the inverse
solve, reference trajectories, body pose, other legs' states and phases of
those cycles are. -/
theorem stance_command_is_initial
    (ik ik' : String → (Fin 3 → ℝ) → Fin 3 → ℝ)
    (initPos : String → Fin 3 → ℝ)
    (refState refState' : String → ℝ → Fin 3 → ℝ)
    (Rwb Rwb' : Matrix (Fin 3) (Fin 3) ℝ) (x x' : Fin 3 → ℝ)
    (gaitMap gaitMap' : String → LegState × ℝ) (leg : String)
    (h : (gaitMap leg).1 = LegState.stance)
    (h' : (gaitMap' leg).1 = LegState.stance) :
    publishedJointPosition ik initPos refState Rwb x gaitMap leg =
      initPos leg ∧
    publishedJointPosition ik' initPos refState' Rwb' x' gaitMap' leg =
      publishedJointPosition ik initPos refState Rwb x gaitMap leg := by
  constructor
  · simp [publishedJointPosition, h]
  · simp [publishedJointPosition, h, h']

/-- Witness for C4 at a concrete cycle pair: two cycles that differ in the
solve, trajectories, body pose and phases but keep the leg in stance. -/
theorem stance_command_is_initial_witness :
    publishedJointPosition (fun _ _ => ![0, 0, 0]) (fun _ => ![1, 2, 3])
        (fun _ _ => ![0, 0, 0]) 1 ![0, 0, 0]
        (fun _ => (LegState.stance, 0)) "RL" =
      (fun _ => ![(1 : ℝ), 2, 3]) "RL" :=
  (stance_command_is_initial (fun _ _ => ![0, 0, 0]) (fun _ _ => ![4, 4, 4])
    (fun _ => ![1, 2, 3]) (fun _ _ => ![0, 0, 0]) (fun _ _ => ![5, 5, 5])
    1 Rz90 ![0, 0, 0] ![6, 6, 6] (fun _ => (LegState.stance, 0))
    (fun _ => (LegState.stance, 0.5)) "RL" rfl rfl).1

/-- C6: with `num_joints = 11` but 12 joint names and 12 initial positions
supplied, the configuration mismatch is reported, yet startup falls through
into the control loop and cycles run with the inconsistent configuration —
against the claim that the configuration is rejected before any cycle. -/
theorem config_mismatch_loop_still_runs :
    configErrorReported 11 (List.replicate 12 "joint") (List.replicate 12 0) ∧
    startupReachesLoop ["RL", "FL", "RR", "FR"] (List.replicate 12 "joint")
      (List.replicate 12 0) := by
  constructor
  · left
    simp
  · refine ⟨by simp, by simp, by simp⟩

lemma vizLoop_length (ref : String → ℝ → Fin 3 → ℝ) (leg : String)
    (t_swing dt : ℝ) :
    ∀ (n : ℕ) (phase : ℝ) (i : ℕ),
      (vizLoop ref leg t_swing dt phase i n).length = n := by
  intro n
  induction n with
  | zero => intro phase i; rfl
  | succ n ih =>
      intro phase i
      simp [vizLoop, ih]

lemma vizLoop_get? (ref : String → ℝ → Fin 3 → ℝ) (leg : String)
    (t_swing dt : ℝ) :
    ∀ (n i : ℕ) (phase : ℝ) (k : ℕ), k < n →
      (vizLoop ref leg t_swing dt phase i n).get? k =
        some (mkTrajMarker ref leg t_swing (i + k) (phase + k * dt)) := by
  intro n
  induction n with
  | zero => omega
  | succ n ih =>
      intro i phase k hk
      cases k with
      | zero => simp [vizLoop]
      | succ k =>
          have hk' : k < n := by omega
          calc (vizLoop ref leg t_swing dt phase i (n + 1)).get? (k + 1)
              = (vizLoop ref leg t_swing dt (phase + dt) (i + 1) n).get? k := by
                simp [vizLoop]
            _ = some (mkTrajMarker ref leg t_swing (i + 1 + k)
                  (phase + dt + k * dt)) := ih (i + 1) (phase + dt) k hk'
            _ = some (mkTrajMarker ref leg t_swing (i + (k + 1))
                  (phase + ((k : ℕ) + 1 : ℕ) * dt)) := by
                have e1 : i + 1 + k = i + (k + 1) := by omega
                have e2 : phase + dt + (k : ℝ) * dt =
                    phase + (((k : ℕ) + 1 : ℕ) : ℝ) * dt := by
                  push_cast
                  ring
                rw [e1, e2]

/-- C10: `footTrajViz` returns exactly 30 markers; the k-th has id k,
namespace the leg name, frame "world", position sampled from the reference
trajectory at phase `stance_phase + k * (1 - stance_phase) / 30` (which stays
strictly below 1 for a stance phase in [0,1)), and is red for legs FL and RR,
blue otherwise. -/
theorem footTrajViz_markers (ref : String → ℝ → Fin 3 → ℝ) (leg_name : String)
    (s t_sw : ℝ) (k : ℕ) (h0 : 0 ≤ s) (h1 : s < 1) (hk : k < 30) :
    (footTrajViz ref leg_name s t_sw).length = 30 ∧
    ∃ m : Marker, (footTrajViz ref leg_name s t_sw).get? k = some m ∧
      m.id = k ∧ m.ns = leg_name ∧ m.frame_id = "world" ∧
      m.position = ref leg_name (s + k * ((1 - s) / 30)) ∧
      s + k * ((1 - s) / 30) < 1 ∧
      m.color = (if leg_name = "FL" ∨ leg_name = "RR" then
        ![1, 0, 0, 1] else ![0, 0, 1, 1]) := by
  refine ⟨vizLoop_length ref leg_name t_sw _ 30 s 0, ?_⟩
  refine ⟨mkTrajMarker ref leg_name t_sw k (s + k * ((1 - s) / 30)), ?_, rfl,
    rfl, rfl, rfl, ?_, rfl⟩
  · have h := vizLoop_get? ref leg_name t_sw ((1 - s) / 30) 30 0 s k hk
    simpa [footTrajViz] using h
  · have hk29 : (k : ℝ) ≤ 29 := by exact_mod_cast Nat.lt_succ_iff.mp hk
    have hpos : 0 < (1 - s) * (30 - (k : ℝ)) := by
      apply mul_pos <;> linarith
    nlinarith [hpos]

/-- Witness for C10 at a concrete call: leg FL, stance phase 0, marker 5. -/
theorem footTrajViz_markers_witness :
    (footTrajViz (fun _ _ => ![0, 0, 0]) "FL" 0 1).length = 30 :=
  (footTrajViz_markers (fun _ _ => ![0, 0, 0]) "FL" 0 1 5 (by norm_num)
    (by norm_num) (by norm_num)).1

end QuadrupedControl
